import Mathlib

/-!
Shallow embedding of `src/gptcli/assistant.py`.

Modelling conventions:

* The Python `AssistantConfig` is a `TypedDict` with `total=False`, i.e. a
  sparse dict.  Each field is modelled with an explicit presence wrapper so
  that a key being absent is distinguished from a key being present.  Fields
  whose declared Python type is `Optional[...]` may additionally hold the
  value `None` while present, hence `Option (Option _)` for them
  (`none` = key absent, `some none` = key present holding `None`,
  `some (some v)` = key present holding `v`).  Fields with a non-optional
  declared type cannot legally hold `None`, hence a single `Option _`.
* Python floats are modelled as `Rat`: the program only stores sampling
  parameters and passes them through `float(...)`, which is the identity on a
  value that is already a float, so no floating-point arithmetic occurs.
* The environment-dependent strings rendered into the built-in profiles
  (the rendered `platform.uname()` value and the rendered `SHELL`
  environment value) are passed in as parameters `uname` and `shell`.
* `sys.exit(1)` and raised exceptions are modelled as explicit result
  constructors; provider construction returns `Except` mirroring the raised
  `ValueError`.
-/

namespace GptCli

/-- A chat message dict with keys `role` and `content`. -/
structure Message where
  role : String
  content : String
deriving DecidableEq

/-- The `AssistantConfig` TypedDict of `assistant.py`.  See the module
comment for the presence encoding of each field. -/
structure AssistantConfig where
  messages : Option (List Message) := none
  provider : Option (Option String) := none
  model : Option String := none
  base_url : Option (Option String) := none
  api_key : Option (Option String) := none
  openai_base_url_override : Option (Option String) := none
  openai_api_key_override : Option (Option String) := none
  anthropic_base_url_override : Option (Option String) := none
  anthropic_api_key_override : Option (Option String) := none
  temperature : Option Rat := none
  top_p : Option Rat := none
  thinking_budget : Option (Option Int) := none
deriving DecidableEq

/-- The `CONFIG_DEFAULTS` dict: fallback defaults when nothing is configured. -/
structure ConfigDefaults where
  provider : String
  model : String
  temperature : Rat
  top_p : Rat
deriving DecidableEq

def CONFIG_DEFAULTS : ConfigDefaults :=
  { provider := "openai", model := "gpt-4o", temperature := 0.7, top_p := 1.0 }

/-- The `PROVIDERS` set of valid provider names (written in source order). -/
def PROVIDERS : List String :=
  ["openai", "anthropic", "google", "cohere", "llama", "azure-openai"]

/-- Seed messages of the built-in `dev` profile.  `uname` is the rendered
value of `platform.uname()` interpolated into the f-string. -/
def devMessages (uname : String) : List Message :=
  [{ role := "system",
     content := "You are a helpful assistant who is an expert in software development. You are helping a user who is a software developer. Your responses are short and concise. You include code snippets when appropriate. Code snippets are formatted using Markdown with a correct language tag. User\x27s `uname`: " ++ uname },
   { role := "user",
     content := "Your responses must be short and concise. Do not include explanations unless asked." },
   { role := "assistant",
     content := "Understood." }]

/-- Seed messages of the built-in `bash` profile.  `shell` is the rendered
value of `os.environ.get` for `SHELL` as interpolated into the f-string. -/
def bashMessages (uname shell : String) : List Message :=
  [{ role := "system",
     content := "You output only valid and correct shell commands according to the user\x27s prompt. You don\x27t provide any explanations or any other text that is not valid shell commands. User\x27s `uname`: " ++ uname ++ ". User\x27s `$SHELL`: " ++ shell ++ "." }]

/-- The `DEFAULT_ASSISTANTS` mapping: built-in named profiles. -/
def DEFAULT_ASSISTANTS (uname shell : String) (name : String) : Option AssistantConfig :=
  if name = "dev" then some { messages := some (devMessages uname) }
  else if name = "general" then some { messages := some ([] : List Message) }
  else if name = "bash" then some { messages := some (bashMessages uname shell) }
  else none

/-- Python truthiness filter for an `Optional[str]` value: `None` and the
empty string are falsy, every other string is truthy. -/
def truthyStr : Option String → Option String
  | some s => if s = "" then none else some s
  | none => none

/-- Python `s.startswith(pre)`: character-level prefix test.  It is modelled
on the character list `String.data` (where it is an executable structural
recursion) rather than through the byte-position-based library function. -/
def strStartsWith (s pre : String) : Bool :=
  pre.data.isPrefixOf s.data

/-- `infer_provider_from_model`: infer provider from model name for backward
compatibility (ordered, case-sensitive `startswith` tests). -/
def infer_provider_from_model (model : String) : Option String :=
  if strStartsWith model "gpt" || strStartsWith model "ft:gpt"
      || strStartsWith model "oai-compat:" || strStartsWith model "openai:"
      || strStartsWith model "chatgpt" || strStartsWith model "o1"
      || strStartsWith model "o3" || strStartsWith model "o4" then
    some "openai"
  else if strStartsWith model "oai-azure:" then
    some "azure-openai"
  else if strStartsWith model "claude" || strStartsWith model "anthropic:" then
    some "anthropic"
  else if strStartsWith model "llama" then
    some "llama"
  else if strStartsWith model "command" || strStartsWith model "c4ai" then
    some "cohere"
  else if strStartsWith model "gemini" || strStartsWith model "gemma" then
    some "google"
  else
    none

/-- A constructed provider-capability instance.  The openai and anthropic
constructors receive the endpoint and credential overrides; the other four
constructors receive nothing (their SDKs read process-wide configuration). -/
inductive CompletionProvider where
  | openai (base_url api_key : Option String)
  | azure_openai
  | anthropic (base_url api_key : Option String)
  | llama
  | cohere
  | google
deriving DecidableEq

/-- The rendered value of the Python expression
`", ".join(sorted(PROVIDERS))`: the six valid provider names sorted
lexicographically and joined by a comma and a space. -/
def sortedProvidersJoined : String :=
  "anthropic, azure-openai, cohere, google, llama, openai"

/-- The message of the `ValueError` raised by `get_completion_provider`. -/
def unknownProviderMsg (provider : String) : String :=
  "Unknown provider: " ++ provider ++ ". Valid providers: " ++ sortedProvidersJoined

/-- `get_completion_provider`: dispatch a provider name to a capability
instance; raises (models the `ValueError`) for every other name. -/
def get_completion_provider (provider : String) (base_url api_key : Option String) :
    Except String CompletionProvider :=
  if provider = "openai" then .ok (.openai base_url api_key)
  else if provider = "azure-openai" then .ok .azure_openai
  else if provider = "anthropic" then .ok (.anthropic base_url api_key)
  else if provider = "llama" then .ok .llama
  else if provider = "cohere" then .ok .cohere
  else if provider = "google" then .ok .google
  else .error (unknownProviderMsg provider)

/-- An `Assistant` object: holds one config bag. -/
structure Assistant where
  config : AssistantConfig
deriving DecidableEq

/-- One iteration of the key-merge loop of `Assistant.from_config` for a
field whose declared type is `Optional[...]`.  `config.get(key) is None`
holds when the key is absent or present holding `None`; in that case the
loop executes `config[key] = default_config[key]`, which raises `KeyError`
when the key is absent from the built-in config.  A key is visited only when
present in the custom or the built-in config, so an absent-absent field is
left absent. -/
def mergeOpt2 (c d : Option (Option α)) : Except String (Option (Option α)) :=
  match c with
  | some (some v) => .ok (some (some v))
  | some none =>
    match d with
    | some dv => .ok (some dv)
    | none => .error "KeyError"
  | none =>
    match d with
    | some dv => .ok (some dv)
    | none => .ok none

/-- One iteration of the key-merge loop for a field whose declared type is
not `Optional[...]`: a present value is never `None`, so
`config.get(key) is None` holds exactly when the key is absent, and the key
is visited only when present in the custom or the built-in config, hence no
`KeyError` can arise for such a field. -/
def mergeReq (c d : Option α) : Option α :=
  match c with
  | some v => some v
  | none => d

/-- The key-merge loop of `Assistant.from_config` run over the fields of the
two configs.  The loop body is order-independent across keys (each iteration
touches only its own key), so it is modelled field by field; the first field
raising `KeyError` makes the whole loop raise, matching the observable
behaviour of the Python loop (which raises on its first such key). -/
def mergeLoop (config default_config : AssistantConfig) : Except String AssistantConfig :=
  (mergeOpt2 config.provider default_config.provider).bind fun provider =>
  (mergeOpt2 config.base_url default_config.base_url).bind fun base_url =>
  (mergeOpt2 config.api_key default_config.api_key).bind fun api_key =>
  (mergeOpt2 config.openai_base_url_override default_config.openai_base_url_override).bind fun obu =>
  (mergeOpt2 config.openai_api_key_override default_config.openai_api_key_override).bind fun oak =>
  (mergeOpt2 config.anthropic_base_url_override default_config.anthropic_base_url_override).bind fun abu =>
  (mergeOpt2 config.anthropic_api_key_override default_config.anthropic_api_key_override).bind fun aak =>
  (mergeOpt2 config.thinking_budget default_config.thinking_budget).bind fun tb =>
  .ok
    { messages := mergeReq config.messages default_config.messages
      provider := provider
      model := mergeReq config.model default_config.model
      base_url := base_url
      api_key := api_key
      openai_base_url_override := obu
      openai_api_key_override := oak
      anthropic_base_url_override := abu
      anthropic_api_key_override := aak
      temperature := mergeReq config.temperature default_config.temperature
      top_p := mergeReq config.top_p default_config.top_p
      thinking_budget := tb }

/-- `Assistant.from_config`: copy the supplied config and, when `name` is a
built-in profile, run the key-merge loop against the built-in config. -/
def Assistant.from_config (uname shell name : String) (config : AssistantConfig) :
    Except String Assistant :=
  match DEFAULT_ASSISTANTS uname shell name with
  | some default_config => (mergeLoop config default_config).map fun c => { config := c }
  | none => .ok { config := config }

/-- `Assistant.init_messages`: `self.config.get("messages", [])[:]` (value
level; the copy semantics are modelled separately on a message store). -/
def Assistant.init_messages (a : Assistant) : List Message :=
  a.config.messages.getD []

/-- `self._param("model")`: config value if the key exists, else the static
default.  The `model` key can never be present holding `None` (its declared
type is not optional), so dict-get-with-default is exactly `getD`. -/
def Assistant.param_model (a : Assistant) : String :=
  a.config.model.getD CONFIG_DEFAULTS.model

/-- `self._param("temperature")` (the `float(...)` coercion applied by
`complete_chat` is the identity on a stored float). -/
def Assistant.param_temperature (a : Assistant) : Rat :=
  a.config.temperature.getD CONFIG_DEFAULTS.temperature

/-- `self._param("top_p")`. -/
def Assistant.param_top_p (a : Assistant) : Rat :=
  a.config.top_p.getD CONFIG_DEFAULTS.top_p

/-- `Assistant._resolve_provider`: explicit truthy config provider, else
truthy inference from the model name, else the static default provider. -/
def Assistant.resolve_provider (a : Assistant) (model : String) : String :=
  match truthyStr a.config.provider.join with
  | some p => p
  | none =>
    match truthyStr (infer_provider_from_model model) with
    | some inferred => inferred
    | none => CONFIG_DEFAULTS.provider

/-- `Assistant._resolve_base_url`: truthy unified field first, else the
legacy per-provider override field for openai/anthropic, else `None`. -/
def Assistant.resolve_base_url (a : Assistant) (provider : String) : Option String :=
  match truthyStr a.config.base_url.join with
  | some _ => a.config.base_url.join
  | none =>
    if provider = "openai" then a.config.openai_base_url_override.join
    else if provider = "anthropic" then a.config.anthropic_base_url_override.join
    else none

/-- `Assistant._resolve_api_key`: same shape as `_resolve_base_url`. -/
def Assistant.resolve_api_key (a : Assistant) (provider : String) : Option String :=
  match truthyStr a.config.api_key.join with
  | some _ => a.config.api_key.join
  | none =>
    if provider = "openai" then a.config.openai_api_key_override.join
    else if provider = "anthropic" then a.config.anthropic_api_key_override.join
    else none

/-- Python substring containment `needle in hay`. -/
def containsSubstr (needle hay : String) : Bool :=
  decide (needle.data <:+: hay.data)

/-- The `args` parameter dict assembled by `complete_chat`; the
`thinking_budget` key is present only when conditionally added. -/
structure ParamBag where
  model : String
  temperature : Rat
  top_p : Rat
  thinking_budget : Option Int := none
deriving DecidableEq

/-- The data handed to the provider capability by `complete_chat` (the
network call itself is outside the modelled core). -/
structure CompletionCall where
  provider : CompletionProvider
  messages : List Message
  args : ParamBag
  stream : Bool
deriving DecidableEq

/-- `Assistant.complete_chat`: resolve model and provider, instantiate the
provider capability (propagating its `ValueError`), assemble the parameter
bag, conditionally add the thinking budget, and delegate. -/
def Assistant.complete_chat (a : Assistant) (messages : List Message) (stream : Bool) :
    Except String CompletionCall :=
  let model := a.param_model
  let provider := a.resolve_provider model
  (get_completion_provider provider (a.resolve_base_url provider)
      (a.resolve_api_key provider)).bind fun completion_provider =>
  let args : ParamBag :=
    { model := model
      temperature := a.param_temperature
      top_p := a.param_top_p }
  let args :=
    match a.config.thinking_budget.join with
    | some b => if containsSubstr "claude-3-7" model then { args with thinking_budget := some b } else args
    | none => args
  .ok { provider := completion_provider, messages := messages, args := args, stream := stream }

/-- The `AssistantGlobalArgs` dataclass of per-invocation overrides. -/
structure AssistantGlobalArgs where
  assistant_name : String
  provider : Option String := none
  model : Option String := none
  temperature : Option Rat := none
  top_p : Option Rat := none
  thinking_budget : Option Int := none
deriving DecidableEq

/-- The `GlobalDefaults` dataclass. -/
structure GlobalDefaults where
  provider : Option String := none
  model : Option String := none
deriving DecidableEq

/-- Result of `init_assistant`: normal return, `sys.exit(1)` with the printed
message, or a propagating exception (the merge-loop `KeyError`). -/
inductive InitResult where
  | exited (code : Nat) (message : String)
  | error (e : String)
  | ok (a : Assistant)
deriving DecidableEq

/-- The profile lookup of `init_assistant`: `custom_assistants` first, then
the built-ins. -/
def lookupAssistantConfig (uname shell : String)
    (custom_assistants : String → Option AssistantConfig) (name : String) :
    Option AssistantConfig :=
  match custom_assistants name with
  | some c => some c
  | none => DEFAULT_ASSISTANTS uname shell name

/-- First statement of the global-defaults pass:
`if global_defaults.provider and assistant.config.get("provider") is None`. -/
def fillProviderDefault (gd : GlobalDefaults) (config : AssistantConfig) : AssistantConfig :=
  match truthyStr gd.provider with
  | some p => if config.provider.join = none then { config with provider := some (some p) } else config
  | none => config

/-- Second statement of the global-defaults pass:
`if global_defaults.model and assistant.config.get("model") is None`. -/
def fillModelDefault (gd : GlobalDefaults) (config : AssistantConfig) : AssistantConfig :=
  match truthyStr gd.model with
  | some m => if config.model = none then { config with model := some m } else config
  | none => config

/-- The global-defaults pass of `init_assistant`: fill `provider` and `model`
only when the corresponding config key is absent or holds `None`, and only
from a truthy global-default value. -/
def applyGlobalDefaults (global_defaults : Option GlobalDefaults)
    (config : AssistantConfig) : AssistantConfig :=
  match global_defaults with
  | none => config
  | some gd => fillModelDefault gd (fillProviderDefault gd config)

/-- The override pass of `init_assistant`: every override field that is not
`None` is written unconditionally. -/
def applyOverrides (args : AssistantGlobalArgs) (config : AssistantConfig) :
    AssistantConfig :=
  let config := match args.provider with
    | some p => { config with provider := some (some p) }
    | none => config
  let config := match args.model with
    | some m => { config with model := some m }
    | none => config
  let config := match args.temperature with
    | some t => { config with temperature := some t }
    | none => config
  let config := match args.top_p with
    | some t => { config with top_p := some t }
    | none => config
  match args.thinking_budget with
  | some b => { config with thinking_budget := some (some b) }
  | none => config

/-- `init_assistant`: look the name up (custom first, then built-ins, exiting
the process when neither matches), merge via `from_config` (whose `KeyError`
propagates), then apply global defaults and per-invocation overrides to the
assistant-owned config. -/
def init_assistant (uname shell : String) (args : AssistantGlobalArgs)
    (custom_assistants : String → Option AssistantConfig)
    (global_defaults : Option GlobalDefaults) : InitResult :=
  match lookupAssistantConfig uname shell custom_assistants args.assistant_name with
  | none => .exited 1 ("Unknown assistant: " ++ args.assistant_name)
  | some cfg =>
    match Assistant.from_config uname shell args.assistant_name cfg with
    | .error e => .error e
    | .ok assistant =>
      .ok { config := applyOverrides args (applyGlobalDefaults global_defaults assistant.config) }

/-!
Definitions written from the words of the specification, for refinement
comparison with the source-derived definitions above.
-/

/-- Modelled from the spec (section 4.1): the ordered prefix rules of the
provider-inference table, first match wins. -/
def specProviderRules : List (String × String) :=
  [("gpt", "openai"), ("ft:gpt", "openai"), ("oai-compat:", "openai"),
   ("openai:", "openai"), ("chatgpt", "openai"), ("o1", "openai"),
   ("o3", "openai"), ("o4", "openai"),
   ("oai-azure:", "azure-openai"),
   ("claude", "anthropic"), ("anthropic:", "anthropic"),
   ("llama", "llama"),
   ("command", "cohere"), ("c4ai", "cohere"),
   ("gemini", "google"), ("gemma", "google")]

/-- Modelled from the spec (section 4.1): return the provider of the first
rule whose prefix matches, else none. -/
def specInferProvider (model : String) : Option String :=
  (specProviderRules.find? (fun rule => strStartsWith model rule.1)).map (fun rule => rule.2)

/-- Modelled from the spec (section 4.3), for an `Optional[...]` field: the
custom value wins whenever present and non-`None`; otherwise the value of the
built-in fills the field whenever the built-in has the key. -/
def specUnionOpt2 (c d : Option (Option α)) : Option (Option α) :=
  match c with
  | some (some v) => some (some v)
  | _ =>
    match d with
    | some dv => some dv
    | none => c

/-- Modelled from the spec (section 4.3), for a field that cannot hold
`None`: custom value if present, else the built-in value. -/
def specUnionReq (c d : Option α) : Option α :=
  match c with
  | some v => some v
  | none => d

/-- Modelled from the spec (section 4.3): the union-of-keys merge of a
caller-supplied config with a built-in config. -/
def specMergedConfig (config default_config : AssistantConfig) : AssistantConfig :=
  { messages := specUnionReq config.messages default_config.messages
    provider := specUnionOpt2 config.provider default_config.provider
    model := specUnionReq config.model default_config.model
    base_url := specUnionOpt2 config.base_url default_config.base_url
    api_key := specUnionOpt2 config.api_key default_config.api_key
    openai_base_url_override := specUnionOpt2 config.openai_base_url_override default_config.openai_base_url_override
    openai_api_key_override := specUnionOpt2 config.openai_api_key_override default_config.openai_api_key_override
    anthropic_base_url_override := specUnionOpt2 config.anthropic_base_url_override default_config.anthropic_base_url_override
    anthropic_api_key_override := specUnionOpt2 config.anthropic_api_key_override default_config.anthropic_api_key_override
    temperature := specUnionReq config.temperature default_config.temperature
    top_p := specUnionReq config.top_p default_config.top_p
    thinking_budget := specUnionOpt2 config.thinking_budget default_config.thinking_budget }

/-- The condition under which the key-merge loop of `from_config` cannot
raise `KeyError` against a given built-in config: no `Optional[...]` key of
the supplied config is present holding `None` while absent from the
built-in. -/
def noNullOrphans (config default_config : AssistantConfig) : Prop :=
  (config.provider = some none → default_config.provider ≠ none) ∧
  (config.base_url = some none → default_config.base_url ≠ none) ∧
  (config.api_key = some none → default_config.api_key ≠ none) ∧
  (config.openai_base_url_override = some none → default_config.openai_base_url_override ≠ none) ∧
  (config.openai_api_key_override = some none → default_config.openai_api_key_override ≠ none) ∧
  (config.anthropic_base_url_override = some none → default_config.anthropic_base_url_override ≠ none) ∧
  (config.anthropic_api_key_override = some none → default_config.anthropic_api_key_override ≠ none) ∧
  (config.thinking_budget = some none → default_config.thinking_budget ≠ none)

/-!
Reference-semantics models.  Python dicts and lists are mutable heap objects;
the two claims about mutation independence (the `config.copy()` in
`from_config` and the `[:]` copy in `init_messages`) are settled on small
allocator stores.
-/

/-- A store of `AssistantConfig` dicts: cell contents plus an allocation
bound (every allocated reference is below `next`). -/
structure CfgStore where
  cells : Nat → AssistantConfig
  next : Nat

/-- Allocate a fresh config dict. -/
def CfgStore.alloc (s : CfgStore) (c : AssistantConfig) : Nat × CfgStore :=
  (s.next, { cells := fun i => if i = s.next then c else s.cells i, next := s.next + 1 })

/-- Heap-level `Assistant.from_config`: `config = config.copy()` allocates a
fresh dict and the merge loop then mutates only that fresh copy, so the net
effect on the store is one fresh cell holding the merged config, with every
pre-existing cell untouched.  `r` is the reference to the caller-supplied
config dict. -/
def from_config_heap (uname shell name : String) (r : Nat) (s : CfgStore) :
    Except String (Nat × CfgStore) :=
  match Assistant.from_config uname shell name (s.cells r) with
  | .error e => .error e
  | .ok a => .ok (s.alloc a.config)

/-- A store of message lists. -/
structure MsgStore where
  cells : Nat → List Message
  next : Nat

/-- Allocate a fresh message list. -/
def MsgStore.alloc (s : MsgStore) (l : List Message) : Nat × MsgStore :=
  (s.next, { cells := fun i => if i = s.next then l else s.cells i, next := s.next + 1 })

/-- Mutate the list stored at `r` in place (appending, removing or otherwise
replacing its elements with `l`). -/
def MsgStore.write (s : MsgStore) (r : Nat) (l : List Message) : MsgStore :=
  { cells := fun i => if i = r then l else s.cells i, next := s.next }

/-- An assistant viewed at heap level: its config holds either no `messages`
key or a reference to a message list in the store. -/
structure AssistantHeap where
  messagesRef : Option Nat

/-- Well-formedness: the messages reference, when present, is allocated. -/
def AssistantHeap.wf (a : AssistantHeap) (s : MsgStore) : Prop :=
  ∀ r, a.messagesRef = some r → r < s.next

/-- The configured seed messages as read from the store:
`self.config.get("messages", [])`. -/
def AssistantHeap.seedMessages (a : AssistantHeap) (s : MsgStore) : List Message :=
  match a.messagesRef with
  | some r => s.cells r
  | none => []

/-- Heap-level `Assistant.init_messages`:
`self.config.get("messages", [])[:]` reads the configured list (or the empty
list) and allocates a fresh copy of it, returning the fresh reference. -/
def init_messages_heap (a : AssistantHeap) (s : MsgStore) : Nat × MsgStore :=
  s.alloc (a.seedMessages s)

/-!
Helper lemmas.
-/

lemma mergeOpt2_ok (c d : Option (Option α)) (h : c = some none → d ≠ none) :
    mergeOpt2 c d = .ok (specUnionOpt2 c d) := by
  match c, d with
  | some (some v), _ => rfl
  | some none, some dv => rfl
  | some none, none => exact absurd rfl (h rfl)
  | none, some dv => rfl
  | none, none => rfl

lemma mergeReq_eq_spec (c d : Option α) : mergeReq c d = specUnionReq c d := by
  cases c <;> rfl

lemma mergeLoop_ok (config default_config : AssistantConfig)
    (h : noNullOrphans config default_config) :
    mergeLoop config default_config = .ok (specMergedConfig config default_config) := by
  obtain ⟨h1, h2, h3, h4, h5, h6, h7, h8⟩ := h
  simp only [mergeLoop, mergeOpt2_ok _ _ h1, mergeOpt2_ok _ _ h2, mergeOpt2_ok _ _ h3,
    mergeOpt2_ok _ _ h4, mergeOpt2_ok _ _ h5, mergeOpt2_ok _ _ h6, mergeOpt2_ok _ _ h7,
    mergeOpt2_ok _ _ h8, Except.bind, mergeReq_eq_spec, specMergedConfig]

lemma from_config_ok_of_builtin (uname shell name : String)
    (config default_config : AssistantConfig)
    (hd : DEFAULT_ASSISTANTS uname shell name = some default_config)
    (h : noNullOrphans config default_config) :
    Assistant.from_config uname shell name config =
      .ok { config := specMergedConfig config default_config } := by
  simp only [Assistant.from_config, hd, mergeLoop_ok _ _ h, Except.map]

lemma from_config_not_builtin (uname shell name : String) (config : AssistantConfig)
    (hd : DEFAULT_ASSISTANTS uname shell name = none) :
    Assistant.from_config uname shell name config = .ok { config := config } := by
  simp only [Assistant.from_config, hd]

lemma applyOverrides_provider (args : AssistantGlobalArgs) (c : AssistantConfig) :
    (applyOverrides args c).provider =
      (match args.provider with | some p => some (some p) | none => c.provider) := by
  unfold applyOverrides
  cases args.provider <;> cases args.model <;> cases args.temperature <;>
    cases args.top_p <;> cases args.thinking_budget <;> rfl

lemma applyOverrides_model (args : AssistantGlobalArgs) (c : AssistantConfig) :
    (applyOverrides args c).model =
      (match args.model with | some m => some m | none => c.model) := by
  unfold applyOverrides
  cases args.provider <;> cases args.model <;> cases args.temperature <;>
    cases args.top_p <;> cases args.thinking_budget <;> rfl

lemma applyOverrides_temperature (args : AssistantGlobalArgs) (c : AssistantConfig) :
    (applyOverrides args c).temperature =
      (match args.temperature with | some t => some t | none => c.temperature) := by
  unfold applyOverrides
  cases args.provider <;> cases args.model <;> cases args.temperature <;>
    cases args.top_p <;> cases args.thinking_budget <;> rfl

lemma applyOverrides_top_p (args : AssistantGlobalArgs) (c : AssistantConfig) :
    (applyOverrides args c).top_p =
      (match args.top_p with | some t => some t | none => c.top_p) := by
  unfold applyOverrides
  cases args.provider <;> cases args.model <;> cases args.temperature <;>
    cases args.top_p <;> cases args.thinking_budget <;> rfl

lemma applyOverrides_thinking_budget (args : AssistantGlobalArgs) (c : AssistantConfig) :
    (applyOverrides args c).thinking_budget =
      (match args.thinking_budget with | some b => some (some b) | none => c.thinking_budget) := by
  unfold applyOverrides
  cases args.provider <;> cases args.model <;> cases args.temperature <;>
    cases args.top_p <;> cases args.thinking_budget <;> rfl

lemma applyOverrides_messages (args : AssistantGlobalArgs) (c : AssistantConfig) :
    (applyOverrides args c).messages = c.messages := by
  unfold applyOverrides
  cases args.provider <;> cases args.model <;> cases args.temperature <;>
    cases args.top_p <;> cases args.thinking_budget <;> rfl

lemma fillProviderDefault_provider (g : GlobalDefaults) (c : AssistantConfig) :
    (fillProviderDefault g c).provider =
      (match truthyStr g.provider with
       | some p => if c.provider.join = none then some (some p) else c.provider
       | none => c.provider) := by
  unfold fillProviderDefault
  cases truthyStr g.provider with
  | none => rfl
  | some p =>
    by_cases hc : c.provider.join = none
    · simp only [if_pos hc]
    · simp only [if_neg hc]

lemma fillProviderDefault_model (g : GlobalDefaults) (c : AssistantConfig) :
    (fillProviderDefault g c).model = c.model := by
  unfold fillProviderDefault
  cases truthyStr g.provider with
  | none => rfl
  | some p =>
    by_cases hc : c.provider.join = none
    · simp only [if_pos hc]
    · simp only [if_neg hc]

lemma fillProviderDefault_others (g : GlobalDefaults) (c : AssistantConfig) :
    (fillProviderDefault g c).messages = c.messages ∧
    (fillProviderDefault g c).base_url = c.base_url ∧
    (fillProviderDefault g c).api_key = c.api_key ∧
    (fillProviderDefault g c).openai_base_url_override = c.openai_base_url_override ∧
    (fillProviderDefault g c).openai_api_key_override = c.openai_api_key_override ∧
    (fillProviderDefault g c).anthropic_base_url_override = c.anthropic_base_url_override ∧
    (fillProviderDefault g c).anthropic_api_key_override = c.anthropic_api_key_override ∧
    (fillProviderDefault g c).temperature = c.temperature ∧
    (fillProviderDefault g c).top_p = c.top_p ∧
    (fillProviderDefault g c).thinking_budget = c.thinking_budget := by
  unfold fillProviderDefault
  cases truthyStr g.provider with
  | none => exact ⟨rfl, rfl, rfl, rfl, rfl, rfl, rfl, rfl, rfl, rfl⟩
  | some p =>
    by_cases hc : c.provider.join = none
    · simp only [if_pos hc]
      exact ⟨trivial, trivial, trivial, trivial, trivial, trivial, trivial, trivial, trivial, trivial⟩
    · simp only [if_neg hc]
      exact ⟨trivial, trivial, trivial, trivial, trivial, trivial, trivial, trivial, trivial, trivial⟩

lemma fillModelDefault_model (g : GlobalDefaults) (c : AssistantConfig) :
    (fillModelDefault g c).model =
      (match truthyStr g.model with
       | some m => if c.model = none then some m else c.model
       | none => c.model) := by
  unfold fillModelDefault
  cases truthyStr g.model with
  | none => rfl
  | some m =>
    by_cases hc : c.model = none
    · simp only [if_pos hc]
    · simp only [if_neg hc]

lemma fillModelDefault_provider (g : GlobalDefaults) (c : AssistantConfig) :
    (fillModelDefault g c).provider = c.provider := by
  unfold fillModelDefault
  cases truthyStr g.model with
  | none => rfl
  | some m =>
    by_cases hc : c.model = none
    · simp only [if_pos hc]
    · simp only [if_neg hc]

lemma fillModelDefault_others (g : GlobalDefaults) (c : AssistantConfig) :
    (fillModelDefault g c).messages = c.messages ∧
    (fillModelDefault g c).base_url = c.base_url ∧
    (fillModelDefault g c).api_key = c.api_key ∧
    (fillModelDefault g c).openai_base_url_override = c.openai_base_url_override ∧
    (fillModelDefault g c).openai_api_key_override = c.openai_api_key_override ∧
    (fillModelDefault g c).anthropic_base_url_override = c.anthropic_base_url_override ∧
    (fillModelDefault g c).anthropic_api_key_override = c.anthropic_api_key_override ∧
    (fillModelDefault g c).temperature = c.temperature ∧
    (fillModelDefault g c).top_p = c.top_p ∧
    (fillModelDefault g c).thinking_budget = c.thinking_budget := by
  unfold fillModelDefault
  cases truthyStr g.model with
  | none => exact ⟨rfl, rfl, rfl, rfl, rfl, rfl, rfl, rfl, rfl, rfl⟩
  | some m =>
    by_cases hc : c.model = none
    · simp only [if_pos hc]
      exact ⟨trivial, trivial, trivial, trivial, trivial, trivial, trivial, trivial, trivial, trivial⟩
    · simp only [if_neg hc]
      exact ⟨trivial, trivial, trivial, trivial, trivial, trivial, trivial, trivial, trivial, trivial⟩

lemma applyGlobalDefaults_none (c : AssistantConfig) :
    applyGlobalDefaults none c = c := rfl

lemma applyGlobalDefaults_some_provider (g : GlobalDefaults) (c : AssistantConfig) :
    (applyGlobalDefaults (some g) c).provider =
      (match truthyStr g.provider with
       | some p => if c.provider.join = none then some (some p) else c.provider
       | none => c.provider) := by
  show (fillModelDefault g (fillProviderDefault g c)).provider = _
  rw [fillModelDefault_provider, fillProviderDefault_provider]

lemma applyGlobalDefaults_some_model (g : GlobalDefaults) (c : AssistantConfig) :
    (applyGlobalDefaults (some g) c).model =
      (match truthyStr g.model with
       | some m => if c.model = none then some m else c.model
       | none => c.model) := by
  show (fillModelDefault g (fillProviderDefault g c)).model = _
  rw [fillModelDefault_model, fillProviderDefault_model]

lemma applyGlobalDefaults_others (gd : Option GlobalDefaults) (c : AssistantConfig) :
    (applyGlobalDefaults gd c).messages = c.messages ∧
    (applyGlobalDefaults gd c).base_url = c.base_url ∧
    (applyGlobalDefaults gd c).api_key = c.api_key ∧
    (applyGlobalDefaults gd c).openai_base_url_override = c.openai_base_url_override ∧
    (applyGlobalDefaults gd c).openai_api_key_override = c.openai_api_key_override ∧
    (applyGlobalDefaults gd c).anthropic_base_url_override = c.anthropic_base_url_override ∧
    (applyGlobalDefaults gd c).anthropic_api_key_override = c.anthropic_api_key_override ∧
    (applyGlobalDefaults gd c).temperature = c.temperature ∧
    (applyGlobalDefaults gd c).top_p = c.top_p ∧
    (applyGlobalDefaults gd c).thinking_budget = c.thinking_budget := by
  cases gd with
  | none => exact ⟨rfl, rfl, rfl, rfl, rfl, rfl, rfl, rfl, rfl, rfl⟩
  | some g =>
    have hp := fillProviderDefault_others g c
    have hm := fillModelDefault_others g (fillProviderDefault g c)
    show (fillModelDefault g (fillProviderDefault g c)).messages = c.messages ∧ _
    exact ⟨hm.1.trans hp.1, hm.2.1.trans hp.2.1, hm.2.2.1.trans hp.2.2.1,
      hm.2.2.2.1.trans hp.2.2.2.1, hm.2.2.2.2.1.trans hp.2.2.2.2.1,
      hm.2.2.2.2.2.1.trans hp.2.2.2.2.2.1, hm.2.2.2.2.2.2.1.trans hp.2.2.2.2.2.2.1,
      hm.2.2.2.2.2.2.2.1.trans hp.2.2.2.2.2.2.2.1,
      hm.2.2.2.2.2.2.2.2.1.trans hp.2.2.2.2.2.2.2.2.1,
      hm.2.2.2.2.2.2.2.2.2.trans hp.2.2.2.2.2.2.2.2.2⟩

lemma init_assistant_ok_generic (uname shell : String) (args : AssistantGlobalArgs)
    (custom_assistants : String → Option AssistantConfig)
    (global_defaults : Option GlobalDefaults) (cfg : AssistantConfig) (m : Assistant)
    (hlook : lookupAssistantConfig uname shell custom_assistants args.assistant_name = some cfg)
    (hmerge : Assistant.from_config uname shell args.assistant_name cfg = .ok m) :
    init_assistant uname shell args custom_assistants global_defaults =
      .ok { config := applyOverrides args (applyGlobalDefaults global_defaults m.config) } := by
  simp only [init_assistant, hlook, hmerge]

/-!
Claim theorems.
-/

/-- C4: for every model string, `infer_provider_from_model` returns exactly
the provider given by the documented ordered, case-sensitive prefix rules
(first matching rule wins), and returns none for every string matching no
rule, e.g. "foo-bar". -/
theorem infer_provider_matches_spec_rules :
    (forall model, infer_provider_from_model model = specInferProvider model) /\
    infer_provider_from_model "foo-bar" = none := by
  constructor
  · intro m
    by_cases h1 : strStartsWith m "gpt"
    · simp [infer_provider_from_model, specInferProvider, specProviderRules, List.find?, h1]
    by_cases h2 : strStartsWith m "ft:gpt"
    · simp [infer_provider_from_model, specInferProvider, specProviderRules, List.find?, h1, h2]
    by_cases h3 : strStartsWith m "oai-compat:"
    · simp [infer_provider_from_model, specInferProvider, specProviderRules, List.find?, h1, h2, h3]
    by_cases h4 : strStartsWith m "openai:"
    · simp [infer_provider_from_model, specInferProvider, specProviderRules, List.find?, h1, h2, h3,
        h4]
    by_cases h5 : strStartsWith m "chatgpt"
    · simp [infer_provider_from_model, specInferProvider, specProviderRules, List.find?, h1, h2, h3,
        h4, h5]
    by_cases h6 : strStartsWith m "o1"
    · simp [infer_provider_from_model, specInferProvider, specProviderRules, List.find?, h1, h2, h3,
        h4, h5, h6]
    by_cases h7 : strStartsWith m "o3"
    · simp [infer_provider_from_model, specInferProvider, specProviderRules, List.find?, h1, h2, h3,
        h4, h5, h6, h7]
    by_cases h8 : strStartsWith m "o4"
    · simp [infer_provider_from_model, specInferProvider, specProviderRules, List.find?, h1, h2, h3,
        h4, h5, h6, h7, h8]
    by_cases h9 : strStartsWith m "oai-azure:"
    · simp [infer_provider_from_model, specInferProvider, specProviderRules, List.find?, h1, h2, h3,
        h4, h5, h6, h7, h8, h9]
    by_cases h10 : strStartsWith m "claude"
    · simp [infer_provider_from_model, specInferProvider, specProviderRules, List.find?, h1, h2, h3,
        h4, h5, h6, h7, h8, h9, h10]
    by_cases h11 : strStartsWith m "anthropic:"
    · simp [infer_provider_from_model, specInferProvider, specProviderRules, List.find?, h1, h2, h3,
        h4, h5, h6, h7, h8, h9, h10, h11]
    by_cases h12 : strStartsWith m "llama"
    · simp [infer_provider_from_model, specInferProvider, specProviderRules, List.find?, h1, h2, h3,
        h4, h5, h6, h7, h8, h9, h10, h11, h12]
    by_cases h13 : strStartsWith m "command"
    · simp [infer_provider_from_model, specInferProvider, specProviderRules, List.find?, h1, h2, h3,
        h4, h5, h6, h7, h8, h9, h10, h11, h12, h13]
    by_cases h14 : strStartsWith m "c4ai"
    · simp [infer_provider_from_model, specInferProvider, specProviderRules, List.find?, h1, h2, h3,
        h4, h5, h6, h7, h8, h9, h10, h11, h12, h13, h14]
    by_cases h15 : strStartsWith m "gemini"
    · simp [infer_provider_from_model, specInferProvider, specProviderRules, List.find?, h1, h2, h3,
        h4, h5, h6, h7, h8, h9, h10, h11, h12, h13, h14, h15]
    by_cases h16 : strStartsWith m "gemma"
    · simp [infer_provider_from_model, specInferProvider, specProviderRules, List.find?, h1, h2, h3,
        h4, h5, h6, h7, h8, h9, h10, h11, h12, h13, h14, h15, h16]
    · simp [infer_provider_from_model, specInferProvider, specProviderRules, List.find?, h1, h2, h3,
        h4, h5, h6, h7, h8, h9, h10, h11, h12, h13, h14, h15, h16]
  · rfl

/-- C8: for every provider identifier outside the closed valid set,
`get_completion_provider` raises a configuration error whose message names
the attempted identifier and lists all six valid identifiers; for every
identifier inside the set it returns a provider capability without raising. -/
theorem get_completion_provider_closed_set (provider : String)
    (base_url api_key : Option String) :
    (provider ∈ PROVIDERS ->
      exists c, get_completion_provider provider base_url api_key = .ok c) /\
    (provider ∉ PROVIDERS ->
      get_completion_provider provider base_url api_key = .error (unknownProviderMsg provider) /\
      unknownProviderMsg provider =
        "Unknown provider: " ++ provider ++
          ". Valid providers: anthropic, azure-openai, cohere, google, llama, openai") := by
  constructor
  · intro h
    fin_cases h
    · exact ⟨.openai base_url api_key, rfl⟩
    · exact ⟨.anthropic base_url api_key, rfl⟩
    · exact ⟨.google, rfl⟩
    · exact ⟨.cohere, rfl⟩
    · exact ⟨.llama, rfl⟩
    · exact ⟨.azure_openai, rfl⟩
  · intro h
    simp only [PROVIDERS, List.mem_cons, List.not_mem_nil, or_false, not_or] at h
    obtain ⟨h1, h2, h3, h4, h5, h6⟩ := h
    constructor
    · unfold get_completion_provider
      rw [if_neg h1, if_neg h6, if_neg h2, if_neg h5, if_neg h4, if_neg h3]
    · unfold unknownProviderMsg sortedProvidersJoined
      rw [String.append_assoc]
      rfl

/-- Witness for C8 at the identifiers "foo" (invalid) and "openai" (valid). -/
theorem get_completion_provider_closed_set_witness :
    ("foo" : String) ∉ PROVIDERS /\
    get_completion_provider "foo" none none = .error (unknownProviderMsg "foo") /\
    ("openai" : String) ∈ PROVIDERS /\
    (exists c, get_completion_provider "openai" none none = .ok c) := by
  refine ⟨by decide, ((get_completion_provider_closed_set "foo" none none).2 (by decide)).1,
    by decide, (get_completion_provider_closed_set "openai" none none).1 (by decide)⟩

/-- C1: the assistant returned by `init_assistant` respects the
field-precedence order: with no per-invocation override for the field, a
provider or model set by the chosen (merged) profile survives the
global-defaults pass unchanged; and the global-defaults pass writes a
provider or model only when the field is currently unset, touching no other
field. -/
theorem init_assistant_precedence (uname shell : String) (args : AssistantGlobalArgs)
    (custom_assistants : String → Option AssistantConfig)
    (global_defaults : Option GlobalDefaults) (cfg : AssistantConfig) (m a : Assistant)
    (hlook : lookupAssistantConfig uname shell custom_assistants args.assistant_name = some cfg)
    (hmerge : Assistant.from_config uname shell args.assistant_name cfg = .ok m)
    (hinit : init_assistant uname shell args custom_assistants global_defaults = .ok a) :
    (args.provider = none -> forall p, m.config.provider = some (some p) ->
      a.config.provider = some (some p)) /\
    (args.model = none -> forall mv, m.config.model = some mv -> a.config.model = some mv) /\
    (forall (g : GlobalDefaults) (c : AssistantConfig),
      ((applyGlobalDefaults (some g) c).provider ≠ c.provider -> c.provider.join = none) /\
      ((applyGlobalDefaults (some g) c).model ≠ c.model -> c.model = none) /\
      (applyGlobalDefaults (some g) c).messages = c.messages /\
      (applyGlobalDefaults (some g) c).temperature = c.temperature /\
      (applyGlobalDefaults (some g) c).top_p = c.top_p /\
      (applyGlobalDefaults (some g) c).thinking_budget = c.thinking_budget /\
      (applyGlobalDefaults (some g) c).base_url = c.base_url /\
      (applyGlobalDefaults (some g) c).api_key = c.api_key) := by
  have heq := init_assistant_ok_generic uname shell args custom_assistants global_defaults cfg m
    hlook hmerge
  rw [hinit] at heq
  injection heq with ha
  refine ⟨?_, ?_, ?_⟩
  · intro hp p hmp
    rw [ha]
    show (applyOverrides args (applyGlobalDefaults global_defaults m.config)).provider = _
    rw [applyOverrides_provider, hp]
    show (applyGlobalDefaults global_defaults m.config).provider = some (some p)
    cases global_defaults with
    | none => rw [applyGlobalDefaults_none]; exact hmp
    | some g =>
      rw [applyGlobalDefaults_some_provider]
      rcases htr : truthyStr g.provider with _ | q
      · simp only [htr]; exact hmp
      · have hj : ¬ m.config.provider.join = none := by rw [hmp]; simp
        simp only [htr, if_neg hj]; exact hmp
  · intro hm mv hmm
    rw [ha]
    show (applyOverrides args (applyGlobalDefaults global_defaults m.config)).model = _
    rw [applyOverrides_model, hm]
    show (applyGlobalDefaults global_defaults m.config).model = some mv
    cases global_defaults with
    | none => rw [applyGlobalDefaults_none]; exact hmm
    | some g =>
      rw [applyGlobalDefaults_some_model]
      rcases htr : truthyStr g.model with _ | q
      · simp only [htr]; exact hmm
      · have hj : ¬ m.config.model = none := by rw [hmm]; simp
        simp only [htr, if_neg hj]; exact hmm
  · intro g c
    have hothers := applyGlobalDefaults_others (some g) c
    refine ⟨?_, ?_, hothers.1, hothers.2.2.2.2.2.2.2.1, hothers.2.2.2.2.2.2.2.2.1,
      hothers.2.2.2.2.2.2.2.2.2, hothers.2.1, hothers.2.2.1⟩
    · intro hne
      by_contra hj
      apply hne
      rw [applyGlobalDefaults_some_provider]
      rcases htr : truthyStr g.provider with _ | q
      · simp only [htr]
      · simp only [htr, if_neg hj]
    · intro hne
      by_contra hj
      apply hne
      rw [applyGlobalDefaults_some_model]
      rcases htr : truthyStr g.model with _ | q
      · simp only [htr]
      · simp only [htr, if_neg hj]

def cfgC1 : AssistantConfig := { provider := some (some "anthropic") }

def customC1 : String → Option AssistantConfig :=
  fun n => if n = "a" then some cfgC1 else none

def argsC1 : AssistantGlobalArgs := { assistant_name := "a" }

def gdC1 : GlobalDefaults := { provider := some "openai", model := some "m" }

def aC1 : Assistant := { config := { provider := some (some "anthropic"), model := some "m" } }

/-- Witness for C1: a profile provider "anthropic" survives a global default
provider "openai". -/
theorem init_assistant_precedence_witness :
    init_assistant "u" "s" argsC1 customC1 (some gdC1) = .ok aC1 /\
    gdC1.provider = some "openai" /\
    aC1.config.provider = some (some "anthropic") := by
  have h := init_assistant_precedence "u" "s" argsC1 customC1 (some gdC1) cfgC1
    { config := cfgC1 } aC1 rfl rfl rfl
  exact ⟨rfl, rfl, h.1 rfl "anthropic" rfl⟩

/-- C2: each override field among provider, model, temperature, top_p and
thinking_budget that is present in the per-invocation overrides is written
into the resolved config unconditionally, overwriting the staged value
produced by the profile merge and the global-defaults pass; absent override
fields leave the staged value unchanged. -/
theorem init_assistant_overrides_unconditional (uname shell : String)
    (args : AssistantGlobalArgs) (custom_assistants : String → Option AssistantConfig)
    (global_defaults : Option GlobalDefaults) (cfg : AssistantConfig) (m a : Assistant)
    (hlook : lookupAssistantConfig uname shell custom_assistants args.assistant_name = some cfg)
    (hmerge : Assistant.from_config uname shell args.assistant_name cfg = .ok m)
    (hinit : init_assistant uname shell args custom_assistants global_defaults = .ok a) :
    (forall p, args.provider = some p -> a.config.provider = some (some p)) /\
    (args.provider = none ->
      a.config.provider = (applyGlobalDefaults global_defaults m.config).provider) /\
    (forall mv, args.model = some mv -> a.config.model = some mv) /\
    (args.model = none ->
      a.config.model = (applyGlobalDefaults global_defaults m.config).model) /\
    (forall t, args.temperature = some t -> a.config.temperature = some t) /\
    (args.temperature = none ->
      a.config.temperature = (applyGlobalDefaults global_defaults m.config).temperature) /\
    (forall t, args.top_p = some t -> a.config.top_p = some t) /\
    (args.top_p = none ->
      a.config.top_p = (applyGlobalDefaults global_defaults m.config).top_p) /\
    (forall b, args.thinking_budget = some b ->
      a.config.thinking_budget = some (some b)) /\
    (args.thinking_budget = none ->
      a.config.thinking_budget = (applyGlobalDefaults global_defaults m.config).thinking_budget) := by
  have heq := init_assistant_ok_generic uname shell args custom_assistants global_defaults cfg m
    hlook hmerge
  rw [hinit] at heq
  injection heq with ha
  have hap : a.config = applyOverrides args (applyGlobalDefaults global_defaults m.config) := by
    rw [ha]
  refine ⟨?_, ?_, ?_, ?_, ?_, ?_, ?_, ?_, ?_, ?_⟩
  · intro p hp; rw [hap, applyOverrides_provider, hp]
  · intro hp; rw [hap, applyOverrides_provider, hp]
  · intro mv hm; rw [hap, applyOverrides_model, hm]
  · intro hm; rw [hap, applyOverrides_model, hm]
  · intro t ht; rw [hap, applyOverrides_temperature, ht]
  · intro ht; rw [hap, applyOverrides_temperature, ht]
  · intro t ht; rw [hap, applyOverrides_top_p, ht]
  · intro ht; rw [hap, applyOverrides_top_p, ht]
  · intro b hb; rw [hap, applyOverrides_thinking_budget, hb]
  · intro hb; rw [hap, applyOverrides_thinking_budget, hb]

def cfgC2 : AssistantConfig := { temperature := some 0.2 }

def customC2 : String → Option AssistantConfig :=
  fun n => if n = "b" then some cfgC2 else none

def argsC2 : AssistantGlobalArgs := { assistant_name := "b", model := some "y" }

def gdC2 : GlobalDefaults := { model := some "x" }

def aC2 : Assistant := { config := { model := some "y", temperature := some 0.2 } }

/-- Witness for C2: override model "y" beats global-default model "x", while
the profile temperature 0.2 is left unchanged. -/
theorem init_assistant_overrides_unconditional_witness :
    init_assistant "u" "s" argsC2 customC2 (some gdC2) = .ok aC2 /\
    aC2.config.model = some "y" /\
    aC2.config.temperature = some 0.2 := by
  have h := init_assistant_overrides_unconditional "u" "s" argsC2 customC2 (some gdC2) cfgC2
    { config := cfgC2 } aC2 rfl rfl rfl
  exact ⟨rfl, h.2.2.1 "y" rfl, (h.2.2.2.2.2.1 rfl).trans rfl⟩

def cfgNullProvider : AssistantConfig := { provider := some none }

/-- C3 counterexample: for the caller-supplied config holding the key
`provider` with value `None` and the built-in name "dev" (whose config lacks
a `provider` key), `from_config` raises `KeyError` instead of returning an
assistant with the union config. -/
theorem from_config_null_orphan_key_error :
    cfgNullProvider.provider = some none /\
    Assistant.from_config "u" "s" "dev" cfgNullProvider = .error "KeyError" := ⟨rfl, rfl⟩

/-- C3 (amended): when the name matches a built-in profile and no field of
the supplied config is present holding `None` while absent from the
built-in, `from_config` returns the union config in which the supplied
value wins whenever present and non-`None` and the built-in value fills the
rest; when the name matches no built-in, the supplied config is used as-is;
and at heap level the caller-owned config cells are not mutated (the merge
result lives in a fresh cell). -/
theorem from_config_merge_union_spec (uname shell name : String) (config : AssistantConfig) :
    (forall default_config, DEFAULT_ASSISTANTS uname shell name = some default_config ->
      noNullOrphans config default_config ->
      Assistant.from_config uname shell name config =
        .ok { config := specMergedConfig config default_config }) /\
    (DEFAULT_ASSISTANTS uname shell name = none ->
      Assistant.from_config uname shell name config = .ok { config := config }) /\
    (forall (r : Nat) (s : CfgStore) (out : Nat × CfgStore),
      from_config_heap uname shell name r s = .ok out ->
      out.1 = s.next /\ (forall q, q < s.next -> out.2.cells q = s.cells q)) := by
  refine ⟨fun d hd h => from_config_ok_of_builtin uname shell name config d hd h,
    from_config_not_builtin uname shell name config, ?_⟩
  intro r s out h
  unfold from_config_heap at h
  cases hf : Assistant.from_config uname shell name (s.cells r) with
  | error e => rw [hf] at h; exact absurd h (by simp)
  | ok av =>
    rw [hf] at h
    injection h with h2
    constructor
    · rw [← h2]
      rfl
    · intro q hq
      rw [← h2]
      show (if q = s.next then av.config else s.cells q) = s.cells q
      rw [if_neg (by omega)]

def cfgDevCustom : AssistantConfig := { temperature := some 0.9 }

def dfltDev : AssistantConfig := { messages := some (devMessages "u") }

def sC3 : CfgStore := { cells := fun _ => cfgDevCustom, next := 1 }

/-- Witness for C3 (amended): the custom "dev" profile setting only
`temperature=0.9` merges with the built-in into the built-in seed messages
plus the custom temperature; a non-built-in name is passed through; and the
heap cell of the caller config is untouched. -/
theorem from_config_merge_union_spec_witness :
    DEFAULT_ASSISTANTS "u" "s" "dev" = some dfltDev /\
    noNullOrphans cfgDevCustom dfltDev /\
    Assistant.from_config "u" "s" "dev" cfgDevCustom =
      .ok { config := specMergedConfig cfgDevCustom dfltDev } /\
    (specMergedConfig cfgDevCustom dfltDev).messages = some (devMessages "u") /\
    (specMergedConfig cfgDevCustom dfltDev).temperature = some 0.9 /\
    Assistant.from_config "u" "s" "zzz" cfgDevCustom = .ok { config := cfgDevCustom } /\
    (CfgStore.alloc sC3 (specMergedConfig cfgDevCustom dfltDev)).2.cells 0 = sC3.cells 0 := by
  have hn : noNullOrphans cfgDevCustom dfltDev := by
    exact ⟨fun h => by simp [cfgDevCustom] at h, fun h => by simp [cfgDevCustom] at h,
      fun h => by simp [cfgDevCustom] at h, fun h => by simp [cfgDevCustom] at h,
      fun h => by simp [cfgDevCustom] at h, fun h => by simp [cfgDevCustom] at h,
      fun h => by simp [cfgDevCustom] at h, fun h => by simp [cfgDevCustom] at h⟩
  have h := from_config_merge_union_spec "u" "s" "dev" cfgDevCustom
  have h2 := from_config_merge_union_spec "u" "s" "zzz" cfgDevCustom
  refine ⟨rfl, hn, h.1 dfltDev rfl hn, rfl, rfl, h2.2.1 rfl,
    (h.2.2 0 sC3 (CfgStore.alloc sC3 (specMergedConfig cfgDevCustom dfltDev)) rfl).2 0
      (by decide)⟩

def cfgC7 : AssistantConfig := { provider := some none }

def customC7 : String → Option AssistantConfig :=
  fun n => if n = "dev" then some cfgC7 else none

/-- C7 counterexample: the name "dev" occurs in the custom-profile mapping,
yet `init_assistant` returns no assistant: the merge loop raises `KeyError`
(the config holds `provider=None` and the built-in "dev" has no `provider`
key), so the claimed "returns an Assistant for every name that occurs"
fails. -/
theorem init_assistant_known_name_no_assistant :
    customC7 "dev" = some cfgC7 /\
    init_assistant "u" "s" { assistant_name := "dev" } customC7 none =
      .error "KeyError" := ⟨rfl, rfl⟩

/-- C7 (amended): a name occurring in neither mapping makes `init_assistant`
terminate the process with exit status 1 after printing an error naming the
assistant; a name that occurs yields an assistant provided the profile merge
cannot raise (no present-`None` field outside the built-in keys). -/
theorem init_assistant_unknown_name_exits (uname shell : String)
    (args : AssistantGlobalArgs) (custom_assistants : String → Option AssistantConfig)
    (global_defaults : Option GlobalDefaults) :
    (lookupAssistantConfig uname shell custom_assistants args.assistant_name = none ->
      init_assistant uname shell args custom_assistants global_defaults =
        .exited 1 ("Unknown assistant: " ++ args.assistant_name)) /\
    (forall cfg,
      lookupAssistantConfig uname shell custom_assistants args.assistant_name = some cfg ->
      (forall default_config,
        DEFAULT_ASSISTANTS uname shell args.assistant_name = some default_config ->
        noNullOrphans cfg default_config) ->
      exists a, init_assistant uname shell args custom_assistants global_defaults = .ok a) := by
  constructor
  · intro h
    simp only [init_assistant, h]
  · intro cfg hlook hno
    cases hd : DEFAULT_ASSISTANTS uname shell args.assistant_name with
    | none =>
      exact ⟨_, init_assistant_ok_generic uname shell args custom_assistants global_defaults cfg
        { config := cfg } hlook (from_config_not_builtin uname shell args.assistant_name cfg hd)⟩
    | some d =>
      exact ⟨_, init_assistant_ok_generic uname shell args custom_assistants global_defaults cfg
        { config := specMergedConfig cfg d } hlook
        (from_config_ok_of_builtin uname shell args.assistant_name cfg d hd (hno d hd))⟩

/-- Witness for C7 (amended): the unknown name "nonexistent" exits with
status 1 and the printed message; the built-in name "general" resolves. -/
theorem init_assistant_unknown_name_exits_witness :
    lookupAssistantConfig "u" "s" (fun _ => none) "nonexistent" = none /\
    init_assistant "u" "s" { assistant_name := "nonexistent" } (fun _ => none) none =
      .exited 1 "Unknown assistant: nonexistent" /\
    (exists a, init_assistant "u" "s" { assistant_name := "general" } (fun _ => none) none =
      .ok a) := by
  have h1 := init_assistant_unknown_name_exits "u" "s" { assistant_name := "nonexistent" }
    (fun _ => none) none
  have h2 := init_assistant_unknown_name_exits "u" "s" { assistant_name := "general" }
    (fun _ => none) none
  refine ⟨rfl, h1.1 rfl, h2.2 { messages := some ([] : List Message) } rfl ?_⟩
  intro d hd
  rw [show DEFAULT_ASSISTANTS "u" "s" "general" =
    some ({ messages := some ([] : List Message) } : AssistantConfig) from rfl] at hd
  injection hd with hd2
  rw [← hd2]
  exact ⟨fun h => by simp at h, fun h => by simp at h, fun h => by simp at h,
    fun h => by simp at h, fun h => by simp at h, fun h => by simp at h,
    fun h => by simp at h, fun h => by simp at h⟩

/-- C5: the parameter bag assembled by `complete_chat` carries a
thinking-budget entry if and only if a thinking budget is configured
(present and non-None) and the resolved model name contains the substring
"claude-3-7". -/
theorem complete_chat_thinking_budget_iff (a : Assistant) (messages : List Message)
    (stream : Bool) (call : CompletionCall)
    (h : a.complete_chat messages stream = .ok call) :
    call.args.model = a.param_model /\
    ((exists b, call.args.thinking_budget = some b) <->
      ((exists b, a.config.thinking_budget.join = some b) /\
        containsSubstr "claude-3-7" call.args.model = true)) := by
  simp only [Assistant.complete_chat] at h
  cases hg : get_completion_provider (a.resolve_provider a.param_model)
      (a.resolve_base_url (a.resolve_provider a.param_model))
      (a.resolve_api_key (a.resolve_provider a.param_model)) with
  | error e =>
    rw [hg] at h
    simp only [Except.bind] at h
    exact Except.noConfusion h
  | ok cp =>
    rw [hg] at h
    simp only [Except.bind] at h
    injection h with hcall
    subst hcall
    rcases htb : a.config.thinking_budget.join with _ | b
    · exact ⟨by simp [htb], by simp [htb]⟩
    · by_cases hcl : containsSubstr "claude-3-7" a.param_model = true
      · exact ⟨by simp [htb, hcl], by simp [htb, hcl]⟩
      · exact ⟨by simp [htb, hcl], by simp [htb, hcl]⟩

def aC5 : Assistant :=
  { config := { model := some "claude-3-7-sonnet", thinking_budget := some (some 1024) } }

def callC5 : CompletionCall :=
  { provider := .anthropic none none, messages := [],
    args := { model := "claude-3-7-sonnet", temperature := 0.7, top_p := 1.0,
              thinking_budget := some 1024 },
    stream := true }

/-- Witness for C5: model "claude-3-7-sonnet" with budget 1024 includes the
thinking-budget parameter. -/
theorem complete_chat_thinking_budget_iff_witness :
    aC5.complete_chat [] true = .ok callC5 /\
    callC5.args.model = aC5.param_model /\
    ((exists b, callC5.args.thinking_budget = some b) <->
      ((exists b, aC5.config.thinking_budget.join = some b) /\
        containsSubstr "claude-3-7" callC5.args.model = true)) := by
  have hc : aC5.complete_chat [] true = .ok callC5 := rfl
  have h := complete_chat_thinking_budget_iff aC5 [] true callC5 hc
  exact ⟨hc, h.1, h.2⟩

def cfgC6 : AssistantConfig :=
  { api_key := some (some ""), anthropic_api_key_override := some (some "abc") }

/-- C6 counterexample: the unified `api_key` field is present (holding the
empty string), yet `_resolve_api_key` returns the deprecated per-provider
override "abc" rather than the present unified value. -/
theorem resolve_api_key_present_empty_not_unified :
    cfgC6.api_key = some (some "") /\
    Assistant.resolve_api_key { config := cfgC6 } "anthropic" = some "abc" /\
    ¬ ((some "abc" : Option String) = some "") := ⟨rfl, rfl, by decide⟩

/-- C6 (amended): `_resolve_base_url` and `_resolve_api_key` return the
unified field whenever it is present with a truthy (non-None, non-empty)
value; otherwise, only for provider openai or anthropic, they return the
matching deprecated per-provider override field as stored; otherwise None. -/
theorem resolve_endpoint_credential_precedence (cfg : AssistantConfig) (provider : String) :
    (forall u, cfg.base_url.join = some u -> ¬ u = "" ->
      Assistant.resolve_base_url { config := cfg } provider = some u) /\
    (truthyStr cfg.base_url.join = none -> provider = "openai" ->
      Assistant.resolve_base_url { config := cfg } provider =
        cfg.openai_base_url_override.join) /\
    (truthyStr cfg.base_url.join = none -> provider = "anthropic" ->
      Assistant.resolve_base_url { config := cfg } provider =
        cfg.anthropic_base_url_override.join) /\
    (truthyStr cfg.base_url.join = none -> ¬ provider = "openai" -> ¬ provider = "anthropic" ->
      Assistant.resolve_base_url { config := cfg } provider = none) /\
    (forall k, cfg.api_key.join = some k -> ¬ k = "" ->
      Assistant.resolve_api_key { config := cfg } provider = some k) /\
    (truthyStr cfg.api_key.join = none -> provider = "openai" ->
      Assistant.resolve_api_key { config := cfg } provider =
        cfg.openai_api_key_override.join) /\
    (truthyStr cfg.api_key.join = none -> provider = "anthropic" ->
      Assistant.resolve_api_key { config := cfg } provider =
        cfg.anthropic_api_key_override.join) /\
    (truthyStr cfg.api_key.join = none -> ¬ provider = "openai" -> ¬ provider = "anthropic" ->
      Assistant.resolve_api_key { config := cfg } provider = none) := by
  refine ⟨?_, ?_, ?_, ?_, ?_, ?_, ?_, ?_⟩
  · intro u hu hne
    simp only [Assistant.resolve_base_url, hu, truthyStr]
    rw [if_neg hne]
  · intro ht hp
    subst hp
    simp only [Assistant.resolve_base_url, ht]
    simp
  · intro ht hp
    subst hp
    simp only [Assistant.resolve_base_url, ht]
    simp
  · intro ht hp ha
    simp only [Assistant.resolve_base_url, ht]
    rw [if_neg hp, if_neg ha]
  · intro k hk hne
    simp only [Assistant.resolve_api_key, hk, truthyStr]
    rw [if_neg hne]
  · intro ht hp
    subst hp
    simp only [Assistant.resolve_api_key, ht]
    simp
  · intro ht hp
    subst hp
    simp only [Assistant.resolve_api_key, ht]
    simp
  · intro ht hp ha
    simp only [Assistant.resolve_api_key, ht]
    rw [if_neg hp, if_neg ha]

def cfgC6legacy : AssistantConfig := { anthropic_api_key_override := some (some "abc") }

def cfgC6both : AssistantConfig :=
  { api_key := some (some "xyz"), anthropic_api_key_override := some (some "abc") }

/-- Witness for C6 (amended): with no unified credential the anthropic
legacy override "abc" is used; when the unified credential "xyz" is also
set, the unified value wins; an unrelated provider resolves to None. -/
theorem resolve_endpoint_credential_precedence_witness :
    Assistant.resolve_api_key { config := cfgC6legacy } "anthropic" = some "abc" /\
    Assistant.resolve_api_key { config := cfgC6both } "anthropic" = some "xyz" /\
    Assistant.resolve_base_url { config := cfgC6legacy } "google" = none := by
  have h1 := resolve_endpoint_credential_precedence cfgC6legacy "anthropic"
  have h2 := resolve_endpoint_credential_precedence cfgC6both "anthropic"
  have h3 := resolve_endpoint_credential_precedence cfgC6legacy "google"
  exact ⟨(h1.2.2.2.2.2.2.1 rfl rfl).trans rfl, h2.2.2.2.2.1 "xyz" rfl (by decide),
    h3.2.2.2.1 rfl (by decide) (by decide)⟩

lemma MsgStore.alloc_cells_self (s : MsgStore) (l : List Message) :
    (s.alloc l).2.cells (s.alloc l).1 = l := by
  show (if s.next = s.next then l else s.cells s.next) = l
  rw [if_pos rfl]

lemma MsgStore.alloc_cells_lt (s : MsgStore) (l : List Message) (q : Nat) (hq : q < s.next) :
    (s.alloc l).2.cells q = s.cells q := by
  show (if q = s.next then l else s.cells q) = s.cells q
  rw [if_neg (by omega)]

lemma MsgStore.write_cells_ne (s : MsgStore) (r : Nat) (l : List Message) (q : Nat)
    (h : ¬ q = r) : (s.write r l).cells q = s.cells q := by
  show (if q = r then l else s.cells q) = s.cells q
  rw [if_neg h]

/-- C9: `init_messages` returns an independent copy of the configured seed
messages: the returned cell initially holds the seed contents; mutating the
returned cell alters neither the assistant-visible seed messages nor what a
second `init_messages` call returns; with no configured messages the result
is the empty sequence. -/
theorem init_messages_heap_independent_copy (a : AssistantHeap) (s : MsgStore)
    (hwf : a.wf s) :
    (init_messages_heap a s).2.cells (init_messages_heap a s).1 = a.seedMessages s /\
    (a.messagesRef = none -> a.seedMessages s = []) /\
    (forall l : List Message,
      a.seedMessages ((init_messages_heap a s).2.write (init_messages_heap a s).1 l) =
        a.seedMessages s /\
      (init_messages_heap a
          ((init_messages_heap a s).2.write (init_messages_heap a s).1 l)).2.cells
        (init_messages_heap a
          ((init_messages_heap a s).2.write (init_messages_heap a s).1 l)).1 =
        a.seedMessages s) := by
  refine ⟨MsgStore.alloc_cells_self s (a.seedMessages s), ?_, ?_⟩
  · intro h
    unfold AssistantHeap.seedMessages
    rw [h]
  · intro l
    have hseed : a.seedMessages
        ((init_messages_heap a s).2.write (init_messages_heap a s).1 l) =
        a.seedMessages s := by
      unfold AssistantHeap.seedMessages
      cases hm : a.messagesRef with
      | none => rfl
      | some r =>
        have hr : r < s.next := hwf r hm
        calc ((init_messages_heap a s).2.write (init_messages_heap a s).1 l).cells r
            = (init_messages_heap a s).2.cells r :=
              MsgStore.write_cells_ne _ _ _ r (show ¬ r = s.next by omega)
          _ = s.cells r := MsgStore.alloc_cells_lt s _ r hr
    refine ⟨hseed, ?_⟩
    calc (init_messages_heap a
            ((init_messages_heap a s).2.write (init_messages_heap a s).1 l)).2.cells
          (init_messages_heap a
            ((init_messages_heap a s).2.write (init_messages_heap a s).1 l)).1
        = a.seedMessages ((init_messages_heap a s).2.write (init_messages_heap a s).1 l) :=
          MsgStore.alloc_cells_self _ _
      _ = a.seedMessages s := hseed

def aC9 : AssistantHeap := { messagesRef := some 0 }

def sC9 : MsgStore :=
  { cells := fun i => if i = 0 then [{ role := "user", content := "hi" }] else [], next := 1 }

/-- Witness for C9: a one-cell store whose configured seed list survives a
mutation of the copy returned by `init_messages`. -/
theorem init_messages_heap_independent_copy_witness :
    aC9.wf sC9 /\
    (init_messages_heap aC9 sC9).2.cells (init_messages_heap aC9 sC9).1 =
      aC9.seedMessages sC9 /\
    (init_messages_heap aC9
        ((init_messages_heap aC9 sC9).2.write (init_messages_heap aC9 sC9).1 [])).2.cells
      (init_messages_heap aC9
        ((init_messages_heap aC9 sC9).2.write (init_messages_heap aC9 sC9).1 [])).1 =
      aC9.seedMessages sC9 := by
  have hwf : aC9.wf sC9 := by
    intro r h
    injection h with h2
    rw [← h2]
    decide
  have h := init_messages_heap_independent_copy aC9 sC9 hwf
  exact ⟨hwf, h.1, (h.2.2 []).2⟩

/-- C10: a present-but-empty string is treated like an unset field: an empty
config provider falls through to inference and then to the "openai" static
default; an empty unified base_url or api_key falls through to the legacy
override fields; and global defaults holding empty strings are ignored even
when the target field is unset. -/
theorem empty_string_fields_treated_as_unset :
    (forall (cfg : AssistantConfig) (model : String), cfg.provider = some (some "") ->
      (forall i, infer_provider_from_model model = some i -> ¬ i = "" ->
        Assistant.resolve_provider { config := cfg } model = i) /\
      (infer_provider_from_model model = none ->
        Assistant.resolve_provider { config := cfg } model = "openai")) /\
    (forall (cfg : AssistantConfig) (provider : String), cfg.base_url = some (some "") ->
      Assistant.resolve_base_url { config := cfg } provider =
        Assistant.resolve_base_url { config := { cfg with base_url := none } } provider) /\
    (forall (cfg : AssistantConfig) (provider : String), cfg.api_key = some (some "") ->
      Assistant.resolve_api_key { config := cfg } provider =
        Assistant.resolve_api_key { config := { cfg with api_key := none } } provider) /\
    (forall (g : GlobalDefaults) (c : AssistantConfig), g.provider = some "" ->
      (applyGlobalDefaults (some g) c).provider = c.provider) /\
    (forall (g : GlobalDefaults) (c : AssistantConfig), g.model = some "" ->
      (applyGlobalDefaults (some g) c).model = c.model) /\
    (forall (uname shell : String) (args : AssistantGlobalArgs)
        (custom_assistants : String → Option AssistantConfig),
      init_assistant uname shell args custom_assistants
          (some { provider := some "", model := some "" }) =
        init_assistant uname shell args custom_assistants none) := by
  refine ⟨?_, ?_, ?_, ?_, ?_, ?_⟩
  · intro cfg model hp
    have ht : truthyStr cfg.provider.join = none := by rw [hp]; rfl
    constructor
    · intro i hi hne
      simp only [Assistant.resolve_provider, ht, hi]
      rw [show truthyStr (some i) = some i from by simp [truthyStr, hne]]
    · intro hi
      simp only [Assistant.resolve_provider, ht, hi]
      rfl
  · intro cfg provider hb
    simp only [Assistant.resolve_base_url, hb]
    rfl
  · intro cfg provider hk
    simp only [Assistant.resolve_api_key, hk]
    rfl
  · intro g c hgp
    have h1 : fillProviderDefault g c = c := by
      unfold fillProviderDefault
      rw [hgp]
      rfl
    calc (applyGlobalDefaults (some g) c).provider
        = (fillModelDefault g (fillProviderDefault g c)).provider := rfl
      _ = (fillProviderDefault g c).provider := fillModelDefault_provider g _
      _ = c.provider := by rw [h1]
  · intro g c hgm
    have h1 : forall cp, fillModelDefault g cp = cp := by
      intro cp
      unfold fillModelDefault
      rw [hgm]
      rfl
    calc (applyGlobalDefaults (some g) c).model
        = (fillModelDefault g (fillProviderDefault g c)).model := rfl
      _ = (fillProviderDefault g c).model := by rw [h1]
      _ = c.model := fillProviderDefault_model g c
  · intro uname shell args custom_assistants
    unfold init_assistant
    cases lookupAssistantConfig uname shell custom_assistants args.assistant_name with
    | none => rfl
    | some cfg =>
      cases Assistant.from_config uname shell args.assistant_name cfg with
      | error e => rfl
      | ok m => rfl

def cfgC10 : AssistantConfig :=
  { provider := some (some ""), base_url := some (some ""), api_key := some (some ""),
    openai_base_url_override := some (some "L") }

def gdEmpty : GlobalDefaults := { provider := some "", model := some "" }

/-- Witness for C10 at a config whose provider, base_url and api_key all hold
the empty string and a global default holding empty strings. -/
theorem empty_string_fields_treated_as_unset_witness :
    cfgC10.provider = some (some "") /\
    Assistant.resolve_provider { config := cfgC10 } "claude-x" = "anthropic" /\
    Assistant.resolve_provider { config := cfgC10 } "zzz" = "openai" /\
    Assistant.resolve_base_url { config := cfgC10 } "openai" =
      Assistant.resolve_base_url { config := { cfgC10 with base_url := none } } "openai" /\
    Assistant.resolve_api_key { config := cfgC10 } "openai" =
      Assistant.resolve_api_key { config := { cfgC10 with api_key := none } } "openai" /\
    (applyGlobalDefaults (some gdEmpty) {}).provider = ({} : AssistantConfig).provider /\
    (applyGlobalDefaults (some gdEmpty) {}).model = ({} : AssistantConfig).model /\
    init_assistant "u" "s" { assistant_name := "general" } (fun _ => none) (some gdEmpty) =
      init_assistant "u" "s" { assistant_name := "general" } (fun _ => none) none := by
  have h := empty_string_fields_treated_as_unset
  exact ⟨rfl, (h.1 cfgC10 "claude-x" rfl).1 "anthropic" rfl (by decide),
    (h.1 cfgC10 "zzz" rfl).2 rfl, h.2.1 cfgC10 "openai" rfl, h.2.2.1 cfgC10 "openai" rfl,
    h.2.2.2.1 gdEmpty {} rfl, h.2.2.2.2.1 gdEmpty {} rfl,
    h.2.2.2.2.2 "u" "s" { assistant_name := "general" } (fun _ => none)⟩

end GptCli
